import Mathlib

/-!
# Verification of the video compositor's pipeline coordination layer

A shallow embedding of the Rust sources of `assembleco/video_compositor`:
the pipeline facade (`compositor_pipeline/src/pipeline.rs`), the encoded
chunk constructor (`compositor_pipeline/src/pipeline/structs.rs`), the
environment configuration (`src/config.rs`), and the request dispatcher's
input-port allocation (`src/api/register_request.rs`).

Rust `HashMap`s are modelled as association lists, `u16`/`i64` as
`Nat`/`Int` (where the source performs `u16` arithmetic that can
overflow, the model takes the result mod 2^16, the release-mode wrap),
fallible calls as `Except`, and calls
into external collaborators (transport constructor, decoder constructor,
renderer) as explicit oracle arguments whose results drive the control
flow exactly as in the source.
-/

/-! ## Configuration (src/config.rs) -/

/-- Modelled environment lookup result for a numeric variable:
`none` = variable unset, `some none` = set but not parsable as a number,
`some (some t)` = set and parses as the (integer-valued) number `t`. -/
abbrev EnvNum : Type := Option (Option Nat)

/-- Rust `read_config`, stream-fallback part (src/config.rs lines 97-107):
on a parsable value `t` the code computes `Duration::from_secs_f64(t)`,
i.e. `t` seconds = `1000 * t` milliseconds; otherwise the default
`Duration::from_millis(2000)`.  The result is in milliseconds. -/
def read_config_stream_fallback_timeout_ms (env : EnvNum) : Nat :=
  match env with
  | none => 2000
  | some none => 2000
  | some (some t) => 1000 * t

/-! ## Encoded chunks (compositor_pipeline/src/pipeline/structs.rs) -/

inductive Codec where
  | h264
  deriving Repr, DecidableEq

inductive EncodedChunkKind where
  | video (codec : Codec)
  deriving Repr, DecidableEq

inductive ChunkFromFfmpegError where
  | noData
  | noPts
  deriving Repr, DecidableEq

/-- An `ffmpeg_next::Packet` as far as `EncodedChunk::from_av_packet`
inspects it: optional payload bytes, optional pts, optional dts. -/
structure AVPacket where
  data : Option (List Nat)
  pts : Option Int
  dts : Option Int
  deriving Repr, DecidableEq

/-- Rust `EncodedChunk` (structs.rs lines 7-12). -/
structure EncodedChunk where
  data : List Nat
  pts : Int
  dts : Option Int
  kind : EncodedChunkKind
  deriving Repr, DecidableEq

/-- Rust `EncodedChunk::from_av_packet` (structs.rs lines 28-43): errors
`NoData` when the packet carries no payload, `NoPts` when it has no pts,
and otherwise builds the chunk, copying `dts` over unchecked. -/
def EncodedChunk.from_av_packet (value : AVPacket) (kind : EncodedChunkKind) :
    Except ChunkFromFfmpegError EncodedChunk :=
  match value.data with
  | none => .error .noData
  | some data =>
    match value.pts with
    | none => .error .noPts
    | some pts => .ok { data := data, pts := pts, dts := value.dts, kind := kind }

/-! ## Pipeline data model (compositor_pipeline/src/pipeline.rs) -/

structure Resolution where
  width : Nat
  height : Nat
  deriving Repr, DecidableEq

/-- Rust `pipeline::input::rtp::RtpReceiver`, as read through
`pipeline::input::Input::Rtp` by the dispatcher: the bound port. -/
structure RtpReceiver where
  port : Nat
  deriving Repr, DecidableEq

/-- Rust `pipeline::output::rtp::RtpSender`, as read through
`pipeline::output::Output::Rtp`: destination port and ip. -/
structure RtpSender where
  port : Nat
  ip : String
  deriving Repr, DecidableEq

/-- The H264 encoder handle; `Encoder::resolution()` returns the declared
resolution the encoder was constructed with. -/
structure Encoder where
  resolution : Resolution
  deriving Repr, DecidableEq

/-- Rust `PipelineInput` (pipeline.rs lines 40-43): transport plus decoder; the
decoder handle is opaque to every claim, kept as a unit field. -/
structure PipelineInput where
  input : RtpReceiver
  decoder : Unit
  deriving Repr, DecidableEq

/-- Rust `PipelineOutput` (pipeline.rs lines 45-48). -/
structure PipelineOutput where
  encoder : Encoder
  output : RtpSender
  deriving Repr, DecidableEq

/-- Rust `std::io::ErrorKind`, as far as `check_port_not_available` inspects it. -/
inductive IOErrorKind where
  | addrInUse
  | otherKind
  deriving Repr, DecidableEq

/-- Rust `pipeline::input::rtp::RtpReceiverError`. -/
inductive RtpReceiverError where
  | socketBind (kind : IOErrorKind)
  | otherReceiverError
  deriving Repr, DecidableEq

/-- Rust `compositor_pipeline::error::InputInitError`. -/
inductive InputInitError where
  | rtp (e : RtpReceiverError)
  deriving Repr, DecidableEq

/-- Decoder construction failure (opaque payload). -/
structure DecoderInitError where
  code : Nat
  deriving Repr, DecidableEq

/-- Encoder construction failure (opaque payload). -/
structure EncoderInitError where
  code : Nat
  deriving Repr, DecidableEq

/-- Output/transport construction failure (opaque payload). -/
structure OutputInitError where
  code : Nat
  deriving Repr, DecidableEq

/-- Rust `compositor_pipeline::error::RegisterInputError`, with the variants
`Pipeline::register_input` produces. -/
inductive RegisterInputError where
  | alreadyRegistered (id : String)
  | inputError (id : String) (e : InputInitError)
  | decoderError (id : String) (e : DecoderInitError)
  deriving Repr, DecidableEq

/-- Rust `compositor_pipeline::error::RegisterOutputError`, with the variants
`Pipeline::register_output` produces. -/
inductive RegisterOutputError where
  | alreadyRegistered (id : String)
  | unsupportedResolution (id : String)
  | encoderError (id : String) (e : EncoderInitError)
  | outputError (id : String) (e : OutputInitError)
  deriving Repr, DecidableEq

/-- Rust `compositor_render::error::UpdateSceneError`, as far as
`Pipeline::update_scene` produces or forwards it. -/
inductive UpdateSceneError where
  | outputNotRegistered (id : String)
  | rendererError (code : Nat)
  deriving Repr, DecidableEq

/-- Scene root `Component`: opaque to the core. -/
abbrev Component := Nat

/-- Rust `pipeline::OutputScene` (pipeline.rs lines 34-38). -/
structure OutputScene where
  output_id : String
  root : Component
  deriving Repr, DecidableEq

/-- Rust `compositor_render::scene::OutputScene`: the element type of the list
forwarded to `Renderer::update_scene`, with the resolution attached. -/
structure SceneOutputScene where
  output_id : String
  root : Component
  resolution : Resolution
  deriving Repr, DecidableEq

inductive LogLevel where
  | error
  | warn
  deriving Repr, DecidableEq

/-- The `Pipeline` struct (pipeline.rs lines 50-56).  The two `HashMap`
registries are association lists; the `Queue` and the spawned render
driver are external collaborators, observed here through the Queue's
registered-input set (modelled from the spec, see `Queue.add_input`), the
number of `queue.start` calls and the number of spawned render driver
threads; `logs` records the facade's own log calls. -/
structure Pipeline where
  inputs : List (String × PipelineInput)
  outputs : List (String × PipelineOutput)
  queueInputs : List String
  queueStarts : Nat
  renderThreads : Nat
  is_started : Bool
  logs : List (LogLevel × String)
  deriving Repr, DecidableEq

/-- Rust `Pipeline::new` (pipeline.rs lines 66-81): empty registries, fresh
queue, `is_started: false`.  The Renderer construction is external. -/
def Pipeline.pipeline_new : Pipeline :=
  { inputs := [], outputs := [], queueInputs := [], queueStarts := 0,
    renderThreads := 0, is_started := false, logs := [] }

/-- Modelled from the spec: `Queue::add_input` (the queue's source file is
not under src/); spec section 4.3 states "add_input(id) / remove_input(id):
adjust the set". -/
def Queue.add_input (queueInputs : List String) (id : String) : List String :=
  queueInputs ++ [id]

/-- Modelled from the spec: `Queue::remove_input`, see `Queue.add_input`. -/
def Queue.remove_input (queueInputs : List String) (id : String) : List String :=
  queueInputs.filter (fun x => x ≠ id)

/-! ## Pipeline facade operations -/

/-- Rust `Pipeline::register_input` (pipeline.rs lines 91-114).  The external
constructors `Input::new` and `Decoder::new` are passed as oracle results
(`input_new`, `decoder_new`); the state is threaded exactly as the source
mutates `self`: nothing is written before the insert, and on success the
insert into `inputs` is followed by `queue.add_input`. -/
def Pipeline.register_input (st : Pipeline) (input_id : String)
    (input_new : Except InputInitError RtpReceiver)
    (decoder_new : Except DecoderInitError Unit) :
    Pipeline × Except RegisterInputError Unit :=
  if (st.inputs.lookup input_id).isSome then
    (st, .error (.alreadyRegistered input_id))
  else
    match input_new with
    | .error e => (st, .error (.inputError input_id e))
    | .ok input =>
      match decoder_new with
      | .error e => (st, .error (.decoderError input_id e))
      | .ok decoder =>
        let st1 := { st with inputs := st.inputs ++ [(input_id, PipelineInput.mk input decoder)] }
        let st2 := { st1 with queueInputs := Queue.add_input st1.queueInputs input_id }
        (st2, .ok ())

/-- Rust `compositor_pipeline::error::UnregisterInputError`. -/
inductive UnregisterInputError where
  | notFound (id : String)
  deriving Repr, DecidableEq

/-- Rust `Pipeline::unregister_input` (pipeline.rs lines 116-124). -/
def Pipeline.unregister_input (st : Pipeline) (input_id : String) :
    Pipeline × Except UnregisterInputError Unit :=
  if (st.inputs.lookup input_id).isNone then
    (st, .error (.notFound input_id))
  else
    ({ st with inputs := st.inputs.filter (fun p => p.1 ≠ input_id),
               queueInputs := Queue.remove_input st.queueInputs input_id }, .ok ())

/-- Rust `EncoderOptions` (only H264 exists). -/
structure FfmpegH264Options where
  resolution : Resolution
  deriving Repr, DecidableEq

inductive EncoderOptions where
  | h264 (opts : FfmpegH264Options)
  deriving Repr, DecidableEq

/-- Rust `Pipeline::register_output` (pipeline.rs lines 126-151): membership
check, then the even-resolution check, then encoder construction, then
output construction, then the insert.  `encoder_new` and `output_new` are
the external constructors' results. -/
def Pipeline.register_output (st : Pipeline) (output_id : String)
    (encoder_opts : EncoderOptions)
    (encoder_new : Except EncoderInitError Unit)
    (output_new : Except OutputInitError RtpSender) :
    Pipeline × Except RegisterOutputError Unit :=
  if (st.outputs.lookup output_id).isSome then
    (st, .error (.alreadyRegistered output_id))
  else
    match encoder_opts with
    | .h264 opts =>
      if opts.resolution.width % 2 != 0 || opts.resolution.height % 2 != 0 then
        (st, .error (.unsupportedResolution output_id))
      else
        match encoder_new with
        | .error e => (st, .error (.encoderError output_id e))
        | .ok _ =>
          match output_new with
          | .error e => (st, .error (.outputError output_id e))
          | .ok output =>
            ({ st with outputs :=
                st.outputs ++ [(output_id, ⟨⟨opts.resolution⟩, output⟩)] }, .ok ())

/-- The element-wise body of `Pipeline::update_scene` (pipeline.rs lines
180-196): map each `OutputScene` to a `scene::OutputScene` with the
registered output's declared resolution, short-circuiting at the first
unregistered id, exactly as `Iterator::map` + `collect::<Result<_,_>>`. -/
def Pipeline.resolve_scenes (outputs : List (String × PipelineOutput)) :
    List OutputScene → Except UpdateSceneError (List SceneOutputScene)
  | [] => .ok []
  | scene :: rest =>
    match outputs.lookup scene.output_id with
    | none => .error (.outputNotRegistered scene.output_id)
    | some po =>
      match Pipeline.resolve_scenes outputs rest with
      | .error e => .error e
      | .ok tail => .ok (⟨scene.output_id, scene.root, po.encoder.resolution⟩ :: tail)

/-- Rust `Pipeline::update_scene` (pipeline.rs lines 179-198).  The second
component records every invocation of `Renderer::update_scene` (with its
argument): none when the resolution pass fails, exactly one — with the
full resolved list — otherwise.  `renderer_update_scene` is the external
Renderer's result. -/
def Pipeline.update_scene (st : Pipeline)
    (renderer_update_scene : List SceneOutputScene → Except UpdateSceneError Unit)
    (scenes : List OutputScene) :
    Except UpdateSceneError Unit × List (List SceneOutputScene) :=
  match Pipeline.resolve_scenes st.outputs scenes with
  | .error e => (.error e, [])
  | .ok resolved => (renderer_update_scene resolved, [resolved])

/-- Rust `Pipeline::start` (pipeline.rs lines 200-238).  When `is_started` is
set the source logs `error!("Pipeline already started.")` and returns;
otherwise it calls `queue.start` and spawns the render driver thread.
The source never assigns `self.is_started = true` (no other write to the
field exists in the repository), which this embedding reproduces. -/
def Pipeline.start (st : Pipeline) : Pipeline :=
  if st.is_started then
    { st with logs := st.logs ++ [(LogLevel.error, "Pipeline already started.")] }
  else
    { st with queueStarts := st.queueStarts + 1,
              renderThreads := st.renderThreads + 1 }

/-! ## Render driver (the thread body spawned by `Pipeline::start`,
pipeline.rs lines 211-237) -/

/-- A raw frame: opaque to the driver. -/
structure Frame where
  data : Nat
  deriving Repr, DecidableEq

/-- The driver's log calls, in source order:
`warn!("Dropping frame: render queue is too long.")`,
`error!("Error while rendering: ...")`, `error!("no output with id ...")`. -/
inductive DriverLog where
  | dropBacklog
  | renderError (code : Nat)
  | unknownOutput (id : String)
  deriving Repr, DecidableEq

/-- One iteration's observable outcome: whether `renderer.render` was
invoked, the frames submitted via `output.encoder.send_frame`, the log
calls, and whether the loop continues to the next batch. -/
structure DriverStep where
  rendererInvoked : Bool
  sentFrames : List (String × Frame)
  logs : List DriverLog
  continues : Bool
  deriving Repr, DecidableEq

/-- The `for (id, frame) in output_frames.frames` loop (pipeline.rs lines
227-235): look each id up in the output registry; a missing id is logged
and skipped, a present one has the frame sent to its encoder. -/
def dispatch_output_frames (outputs : List (String × PipelineOutput)) :
    List (String × Frame) → List (String × Frame) × List DriverLog
  | [] => ([], [])
  | (id, frame) :: rest =>
    match outputs.lookup id with
    | none =>
      let (sent, logs) := dispatch_output_frames outputs rest
      (sent, .unknownOutput id :: logs)
    | some _ =>
      let (sent, logs) := dispatch_output_frames outputs rest
      ((id, frame) :: sent, logs)

/-- One iteration of the render driver loop (pipeline.rs lines 212-236):
`backlog` is `frames_receiver.len()` after the current batch was taken;
`renderer_render` is the external Renderer (`Err` = render failure with an
opaque payload). -/
def render_driver_step (backlog : Nat)
    (renderer_render : List (String × Frame) → Except Nat (List (String × Frame)))
    (outputs : List (String × PipelineOutput))
    (input_frames : List (String × Frame)) : DriverStep :=
  if backlog > 20 then
    { rendererInvoked := false, sentFrames := [], logs := [.dropBacklog], continues := true }
  else
    match renderer_render input_frames with
    | .error code =>
      { rendererInvoked := true, sentFrames := [], logs := [.renderError code],
        continues := true }
    | .ok output_frames =>
      let (sent, logs) := dispatch_output_frames outputs output_frames
      { rendererInvoked := true, sentFrames := sent, logs := logs, continues := true }

/-! ## Request dispatcher: input registration
(src/api/register_request.rs) -/

/-- Rust `check_port_not_available` (register_request.rs lines 166-187), as the
predicate "returned `Err`": true exactly for a register failure that is an
`InputError` wrapping `Rtp(SocketBind(e))` with `e.kind() == AddrInUse`. -/
def check_port_not_available {T : Type} (register_input_error : Except RegisterInputError T) :
    Bool :=
  match register_input_error with
  | .error (.inputError _ (.rtp (.socketBind .addrInUse))) => true
  | _ => false

/-- The candidate check of the range arm (register_request.rs lines
84-95): some registered input's rtp receiver satisfies
`input.port == port || input.port + 1 == port`.  Ports are `u16`, so the
source's `input.port + 1` is `u16` addition: at `input.port = 65535` it
wraps to 0 in release mode (and panics in debug); the model takes the
release-mode wrap, `(port + 1) % 2^16`. -/
def port_used_by_input (inputs : List (String × PipelineInput)) (port : Nat) : Bool :=
  inputs.any fun p =>
    p.2.input.port == port || (p.2.input.port + 1) % 65536 == port

/-- Outcome of the `Port::Range` arm. -/
inductive RangeRegisterOutcome where
  | registeredPort (port : Nat)
  | registerError (e : RegisterInputError)
  | portsExhausted
  deriving Repr, DecidableEq

/-- The `for port in start..=end` loop (register_request.rs lines 81-120)
over an explicit candidate list.  `attempt port` is the result of
`api.pipeline.register_input` at that candidate (failed attempts leave the
registry unchanged — see `register_input_all_or_nothing` — so the same
`inputs` snapshot is read at every iteration; a successful attempt
returns immediately).  The first component lists the candidates on which
`register_input` was attempted, in order. -/
def register_input_probe (inputs : List (String × PipelineInput))
    (attempt : Nat → Except RegisterInputError Unit) :
    List Nat → List Nat × RangeRegisterOutcome
  | [] => ([], .portsExhausted)
  | port :: rest =>
    if port_used_by_input inputs port then
      register_input_probe inputs attempt rest
    else
      if check_port_not_available (attempt port) then
        (port :: (register_input_probe inputs attempt rest).1,
         (register_input_probe inputs attempt rest).2)
      else
        match attempt port with
        | .ok _ => ([port], .registeredPort port)
        | .error e => ([port], .registerError e)

/-- The candidates of `for port in start..=end`, in loop order. -/
def range_candidates (start_port end_port : Nat) : List Nat :=
  List.range' start_port (end_port + 1 - start_port)

/-- The full `Port::Range((start, end))` arm. -/
def register_input_range (inputs : List (String × PipelineInput))
    (attempt : Nat → Except RegisterInputError Unit)
    (start_port end_port : Nat) : List Nat × RangeRegisterOutcome :=
  register_input_probe inputs attempt (range_candidates start_port end_port)

/-- Outcome of the `Port::Exact` arm. -/
inductive ExactRegisterOutcome where
  | preCheckPortInUse
  | attemptPortInUse
  | registerError (e : RegisterInputError)
  | registeredPort (port : Nat)
  deriving Repr, DecidableEq

/-- The `Port::Exact(port)` arm (register_request.rs lines 129-160): the
pre-check `find(|(_, input)| input.port == port)` rejects with the
`PORT_ALREADY_IN_USE` error code (`preCheckPortInUse`) before attempting;
otherwise `register_input` is attempted (first component true), an
`AddrInUse` bind failure is mapped to `PORT_ALREADY_IN_USE`
(`attemptPortInUse`), any other failure surfaces, and success answers
`Response::RegisteredPort(port)`. -/
def register_input_exact (inputs : List (String × PipelineInput))
    (attempt : Except RegisterInputError Unit) (port : Nat) :
    Bool × ExactRegisterOutcome :=
  if inputs.any (fun p => p.2.input.port == port) then
    (false, .preCheckPortInUse)
  else
    if check_port_not_available attempt then
      (true, .attemptPortInUse)
    else
      match attempt with
      | .error e => (true, .registerError e)
      | .ok _ => (true, .registeredPort port)

/-- The declared resolution `update_scene` reads for an output id:
`outputs.get(&id)....encoder.resolution()`, with a dummy value for a
missing id (only quoted under an is-registered hypothesis). -/
def resolution_of (outputs : List (String × PipelineOutput)) (id : String) : Resolution :=
  match outputs.lookup id with
  | some po => po.encoder.resolution
  | none => ⟨0, 0⟩

/-- The candidate-rejection predicate as claim C2 words it (a comparison
definition following the claim, not the source): the candidate is already
held by a registered input, or is the port-1 or port+1 neighbour of a
registered input's port. -/
def port_rejected_per_claim (inputs : List (String × PipelineInput)) (port : Nat) : Bool :=
  inputs.any fun p =>
    p.2.input.port == port || p.2.input.port == port + 1 || p.2.input.port + 1 == port

/-- A candidate the probe loop advances over without stopping: either the
registered-port check rejects it, or its attempt failed with an
`AddrInUse` socket bind. -/
def probe_skips (inputs : List (String × PipelineInput))
    (attempt : Nat → Except RegisterInputError Unit) (c : Nat) : Bool :=
  port_used_by_input inputs c || check_port_not_available (attempt c)

/-! ## Theorems -/

/-- C1: the claim says a second `start` only logs and leaves the pipeline
unchanged.  In the source the guard `if self.is_started` exists but
`self.is_started = true` is never assigned (the only writes to the field
are the `false` in `Pipeline::new`), so after a first `start` the flag is
still false and a second call starts the Queue again and spawns a second
render driver thread, logging nothing. -/
theorem start_twice_starts_queue_twice :
    (Pipeline.pipeline_new.start).is_started = false ∧
    ((Pipeline.pipeline_new.start).start).queueStarts = 2 ∧
    ((Pipeline.pipeline_new.start).start).renderThreads = 2 ∧
    ((Pipeline.pipeline_new.start).start).logs = [] := by
  decide

/-- C3: with the stream-fallback environment variable set to the parsable
number 2000, `read_config` produces `Duration::from_secs_f64(2000)` =
2000 seconds = 2000000 ms, not the 2000 ms the claim states; the unset
and unparsable cases do default to 2000 ms. -/
theorem stream_fallback_timeout_env_misinterpreted :
    read_config_stream_fallback_timeout_ms (some (some 2000)) = 2000000 ∧
    read_config_stream_fallback_timeout_ms none = 2000 ∧
    read_config_stream_fallback_timeout_ms (some none) = 2000 := by
  decide

/-- C4 counterexample: `from_av_packet` accepts a packet whose payload is
present but empty and whose dts (5) exceeds its pts (0), returning `Ok`
with the violating chunk instead of an error. -/
theorem from_av_packet_accepts_violating_packet :
    EncodedChunk.from_av_packet ⟨some [], some 0, some 5⟩ (.video .h264) =
      .ok ⟨[], 0, some 5, .video .h264⟩ ∧
    (0 : Int) < 5 :=
  ⟨rfl, by decide⟩

/-- C4 amended: `from_av_packet` errors `NoData` when the payload is
absent and `NoPts` when the pts is absent; otherwise it constructs the
chunk with the packet's bytes, pts and dts copied over unchecked — it
validates presence only, not non-emptiness of present data nor
`dts ≤ pts`. -/
theorem from_av_packet_spec (p : AVPacket) (kind : EncodedChunkKind) :
    (p.data = none → EncodedChunk.from_av_packet p kind = .error .noData) ∧
    (∀ d, p.data = some d → p.pts = none →
      EncodedChunk.from_av_packet p kind = .error .noPts) ∧
    (∀ d pts, p.data = some d → p.pts = some pts →
      EncodedChunk.from_av_packet p kind = .ok ⟨d, pts, p.dts, kind⟩) := by
  obtain ⟨d, pts, dts⟩ := p
  refine ⟨?_, ?_, ?_⟩
  · intro h
    simp only at h
    subst h
    rfl
  · intro d2 hd hp
    simp only at hd hp
    subst hd; subst hp
    rfl
  · intro d2 p2 hd hp
    simp only at hd hp
    subst hd; subst hp
    rfl

/-- Witness for `from_av_packet_spec` at a concrete packet. -/
theorem from_av_packet_spec_witness :
    EncodedChunk.from_av_packet ⟨some [1], some 7, none⟩ (.video .h264) =
      .ok ⟨[1], 7, none, .video .h264⟩ :=
  (from_av_packet_spec ⟨some [1], some 7, none⟩ (.video .h264)).2.2 [1] 7 rfl rfl

/-- C5: `Pipeline::register_input` is all-or-nothing.  Any failure —
`AlreadyRegistered` when the id is present, the transport error when
`Input::new` fails, the decoder error when `Decoder::new` fails — leaves
the whole pipeline state (in particular the inputs registry and the
Queue's input set) exactly as before the call; only on success is the
input inserted and added to the Queue. -/
theorem register_input_all_or_nothing (st : Pipeline) (id : String)
    (input_new : Except InputInitError RtpReceiver)
    (decoder_new : Except DecoderInitError Unit) :
    (∀ e, (Pipeline.register_input st id input_new decoder_new).2 = .error e →
      (Pipeline.register_input st id input_new decoder_new).1 = st) ∧
    ((st.inputs.lookup id).isSome →
      (Pipeline.register_input st id input_new decoder_new).2 =
        .error (.alreadyRegistered id)) ∧
    (∀ e, st.inputs.lookup id = none → input_new = .error e →
      (Pipeline.register_input st id input_new decoder_new).2 =
        .error (.inputError id e)) ∧
    (∀ r e, st.inputs.lookup id = none → input_new = .ok r → decoder_new = .error e →
      (Pipeline.register_input st id input_new decoder_new).2 =
        .error (.decoderError id e)) ∧
    (∀ r, st.inputs.lookup id = none → input_new = .ok r → decoder_new = .ok () →
      Pipeline.register_input st id input_new decoder_new =
        ({ st with inputs := st.inputs ++ [(id, PipelineInput.mk r ())],
                   queueInputs := Queue.add_input st.queueInputs id }, .ok ())) := by
  cases hl : st.inputs.lookup id with
  | some v =>
    refine ⟨?_, ?_, ?_, ?_, ?_⟩ <;>
      simp [Pipeline.register_input, hl]
  | none =>
    cases input_new with
    | error e0 =>
      refine ⟨?_, ?_, ?_, ?_, ?_⟩ <;>
        simp [Pipeline.register_input, hl]
    | ok r0 =>
      cases decoder_new with
      | error e1 =>
        refine ⟨?_, ?_, ?_, ?_, ?_⟩ <;>
          simp [Pipeline.register_input, hl]
      | ok d0 =>
        refine ⟨?_, ?_, ?_, ?_, ?_⟩ <;>
          simp [Pipeline.register_input, hl, Queue.add_input]

/-- Witness for `register_input_all_or_nothing`: a successful registration
on a fresh pipeline inserts the input and adds it to the Queue, and a
failing registration (duplicate id) leaves the state untouched. -/
theorem register_input_all_or_nothing_witness :
    Pipeline.register_input Pipeline.pipeline_new "a" (.ok ⟨5000⟩) (.ok ()) =
      ({ Pipeline.pipeline_new with
           inputs := Pipeline.pipeline_new.inputs ++ [("a", PipelineInput.mk ⟨5000⟩ ())],
           queueInputs := Queue.add_input Pipeline.pipeline_new.queueInputs "a" },
       .ok ()) ∧
    (Pipeline.register_input
        { Pipeline.pipeline_new with inputs := [("a", PipelineInput.mk ⟨5000⟩ ())] }
        "a" (.ok ⟨5001⟩) (.ok ())).1 =
      { Pipeline.pipeline_new with inputs := [("a", PipelineInput.mk ⟨5000⟩ ())] } :=
  ⟨(register_input_all_or_nothing Pipeline.pipeline_new "a" (.ok ⟨5000⟩) (.ok ())).2.2.2.2
      ⟨5000⟩ rfl rfl rfl,
   (register_input_all_or_nothing
      { Pipeline.pipeline_new with inputs := [("a", PipelineInput.mk ⟨5000⟩ ())] }
      "a" (.ok ⟨5001⟩) (.ok ())).1
      (.alreadyRegistered "a") rfl⟩

/-- C8 counterexample: `register_output` checks `AlreadyRegistered` before
the resolution check, so a request with odd width 3 for an id that is
already registered fails with `AlreadyRegistered`, not
`UnsupportedResolution` — the claimed "exactly when width or height is
odd" fails in the odd-but-duplicate case. -/
theorem register_output_odd_but_duplicate :
    (3 % 2 ≠ 0) ∧
    (Pipeline.register_output
        { Pipeline.pipeline_new with
            outputs := [("o", PipelineOutput.mk ⟨⟨1920, 1080⟩⟩ ⟨8002, "ip"⟩)] }
        "o" (.h264 ⟨⟨3, 2⟩⟩) (.ok ()) (.ok ⟨8003, "ip"⟩)).2 =
      .error (.alreadyRegistered "o") ∧
    (Pipeline.register_output
        { Pipeline.pipeline_new with
            outputs := [("o", PipelineOutput.mk ⟨⟨1920, 1080⟩⟩ ⟨8002, "ip"⟩)] }
        "o" (.h264 ⟨⟨3, 2⟩⟩) (.ok ()) (.ok ⟨8003, "ip"⟩)).2 ≠
      .error (.unsupportedResolution "o") := by
  refine ⟨by decide, rfl, ?_⟩
  intro h
  exact RegisterOutputError.noConfusion (Except.error.inj h)

/-- C8 amended: `register_output` fails with `UnsupportedResolution`
exactly when the id is not already registered and the requested width or
height is odd (a duplicate id wins with `AlreadyRegistered`); and a
successful registration preserves the invariant that every registered
output has even width and even height. -/
theorem register_output_unsupported_resolution (st : Pipeline) (id : String)
    (opts : FfmpegH264Options) (enc_new : Except EncoderInitError Unit)
    (out_new : Except OutputInitError RtpSender) :
    ((Pipeline.register_output st id (.h264 opts) enc_new out_new).2 =
        .error (.unsupportedResolution id) ↔
      st.outputs.lookup id = none ∧
        (opts.resolution.width % 2 ≠ 0 ∨ opts.resolution.height % 2 ≠ 0)) ∧
    ((∀ q ∈ st.outputs, q.2.encoder.resolution.width % 2 = 0 ∧
        q.2.encoder.resolution.height % 2 = 0) →
      ∀ st2, Pipeline.register_output st id (.h264 opts) enc_new out_new = (st2, .ok ()) →
      ∀ q ∈ st2.outputs, q.2.encoder.resolution.width % 2 = 0 ∧
        q.2.encoder.resolution.height % 2 = 0) := by
  cases hl : st.outputs.lookup id with
  | some v =>
    constructor
    · simp [Pipeline.register_output, hl]
    · intro hev st2 heq
      simp [Pipeline.register_output, hl] at heq
  | none =>
    rcases Nat.mod_two_eq_zero_or_one opts.resolution.width with hW | hW <;>
      rcases Nat.mod_two_eq_zero_or_one opts.resolution.height with hH | hH
    case inl.inl =>
      constructor
      · cases enc_new with
        | error e => simp [Pipeline.register_output, hl, hW, hH]
        | ok u =>
          cases out_new with
          | error e => simp [Pipeline.register_output, hl, hW, hH]
          | ok outp => simp [Pipeline.register_output, hl, hW, hH]
      · intro hev st2 heq q hq
        cases enc_new with
        | error e => simp [Pipeline.register_output, hl, hW, hH] at heq
        | ok u =>
          cases out_new with
          | error e => simp [Pipeline.register_output, hl, hW, hH] at heq
          | ok outp =>
            simp [Pipeline.register_output, hl, hW, hH] at heq
            rw [← heq] at hq
            simp at hq
            rcases hq with hq | hq
            · exact hev q hq
            · rw [hq]
              exact ⟨hW, hH⟩
    case inl.inr =>
      constructor
      · simp [Pipeline.register_output, hl, hW, hH]
      · intro hev st2 heq
        simp [Pipeline.register_output, hl, hW, hH] at heq
    case inr.inl =>
      constructor
      · simp [Pipeline.register_output, hl, hW, hH]
      · intro hev st2 heq
        simp [Pipeline.register_output, hl, hW, hH] at heq
    case inr.inr =>
      constructor
      · simp [Pipeline.register_output, hl, hW, hH]
      · intro hev st2 heq
        simp [Pipeline.register_output, hl, hW, hH] at heq

/-- Witness for `register_output_unsupported_resolution`: on a fresh
pipeline a successful even-resolution registration leaves only
even-resolution outputs registered. -/
theorem register_output_unsupported_resolution_witness :
    ("o", PipelineOutput.mk ⟨⟨1920, 1080⟩⟩ ⟨8002, "ip"⟩).2.encoder.resolution.width % 2 = 0 ∧
    ("o", PipelineOutput.mk ⟨⟨1920, 1080⟩⟩ ⟨8002, "ip"⟩).2.encoder.resolution.height % 2 = 0 :=
  (register_output_unsupported_resolution Pipeline.pipeline_new "o" ⟨⟨1920, 1080⟩⟩
      (.ok ()) (.ok ⟨8002, "ip"⟩)).2
    (by simp [Pipeline.pipeline_new])
    { Pipeline.pipeline_new with
        outputs := [("o", PipelineOutput.mk ⟨⟨1920, 1080⟩⟩ ⟨8002, "ip"⟩)] }
    rfl
    ("o", PipelineOutput.mk ⟨⟨1920, 1080⟩⟩ ⟨8002, "ip"⟩)
    (by simp)

/-- When every scene's output id is registered, the resolution pass
succeeds and attaches each output's declared resolution. -/
theorem resolve_scenes_ok (outputs : List (String × PipelineOutput))
    (scenes : List OutputScene)
    (h : ∀ s ∈ scenes, (outputs.lookup s.output_id).isSome) :
    Pipeline.resolve_scenes outputs scenes =
      .ok (scenes.map fun s => ⟨s.output_id, s.root, resolution_of outputs s.output_id⟩) := by
  induction scenes with
  | nil => rfl
  | cons s rest ih =>
    have hs := h s (by simp)
    cases hl : outputs.lookup s.output_id with
    | none => rw [hl] at hs; simp at hs
    | some po =>
      have hrest := ih (fun x hx => h x (by simp [hx]))
      simp [Pipeline.resolve_scenes, hl, hrest, resolution_of]

/-- When some scene's output id is unregistered, the resolution pass fails
with `OutputNotRegistered` for an unregistered id. -/
theorem resolve_scenes_err (outputs : List (String × PipelineOutput))
    (scenes : List OutputScene)
    (h : ∃ s ∈ scenes, outputs.lookup s.output_id = none) :
    ∃ id, outputs.lookup id = none ∧
      Pipeline.resolve_scenes outputs scenes = .error (.outputNotRegistered id) := by
  induction scenes with
  | nil => simp at h
  | cons s rest ih =>
    cases hl : outputs.lookup s.output_id with
    | none =>
      exact ⟨s.output_id, hl, by simp [Pipeline.resolve_scenes, hl]⟩
    | some po =>
      have hrest : ∃ x ∈ rest, outputs.lookup x.output_id = none := by
        rcases h with ⟨x, hx, hxl⟩
        rcases List.mem_cons.mp hx with hx | hx
        · rw [hx] at hxl; rw [hxl] at hl; cases hl
        · exact ⟨x, hx, hxl⟩
      rcases ih hrest with ⟨id, hid, heq⟩
      exact ⟨id, hid, by simp [Pipeline.resolve_scenes, hl, heq]⟩

/-- C6: `update_scene` applies no partial update.  If any element's
output id is unregistered the call fails with `OutputNotRegistered` and
`Renderer::update_scene` is never invoked; otherwise the full list, with
each output's declared resolution attached, is forwarded to the Renderer
in a single call. -/
theorem update_scene_no_partial_update (st : Pipeline)
    (renderer_update_scene : List SceneOutputScene → Except UpdateSceneError Unit)
    (scenes : List OutputScene) :
    ((∃ s ∈ scenes, st.outputs.lookup s.output_id = none) →
      (∃ id, st.outputs.lookup id = none ∧
        (Pipeline.update_scene st renderer_update_scene scenes).1 =
          .error (.outputNotRegistered id)) ∧
      (Pipeline.update_scene st renderer_update_scene scenes).2 = []) ∧
    ((∀ s ∈ scenes, (st.outputs.lookup s.output_id).isSome) →
      Pipeline.update_scene st renderer_update_scene scenes =
        (renderer_update_scene
          (scenes.map fun s => ⟨s.output_id, s.root, resolution_of st.outputs s.output_id⟩),
         [scenes.map fun s => ⟨s.output_id, s.root, resolution_of st.outputs s.output_id⟩])) := by
  constructor
  · intro h
    rcases resolve_scenes_err st.outputs scenes h with ⟨id, hid, heq⟩
    exact ⟨⟨id, hid, by simp [Pipeline.update_scene, heq]⟩,
           by simp [Pipeline.update_scene, heq]⟩
  · intro h
    simp [Pipeline.update_scene, resolve_scenes_ok st.outputs scenes h]

/-- Witness for `update_scene_no_partial_update`: with output "o"
registered, updating scenes ["o"] forwards one resolved list to the
Renderer, while updating scenes ["p"] fails without a Renderer call. -/
theorem update_scene_no_partial_update_witness :
    Pipeline.update_scene
        { Pipeline.pipeline_new with
            outputs := [("o", PipelineOutput.mk ⟨⟨1920, 1080⟩⟩ ⟨8002, "ip"⟩)] }
        (fun _ => .ok ()) [⟨"o", 3⟩] =
      (.ok (),
       [[⟨"o", 3, resolution_of
            [("o", PipelineOutput.mk ⟨⟨1920, 1080⟩⟩ ⟨8002, "ip"⟩)] "o"⟩]]) ∧
    (Pipeline.update_scene
        { Pipeline.pipeline_new with
            outputs := [("o", PipelineOutput.mk ⟨⟨1920, 1080⟩⟩ ⟨8002, "ip"⟩)] }
        (fun _ => .ok ()) [⟨"p", 3⟩]).2 = [] :=
  ⟨(update_scene_no_partial_update
      { Pipeline.pipeline_new with
          outputs := [("o", PipelineOutput.mk ⟨⟨1920, 1080⟩⟩ ⟨8002, "ip"⟩)] }
      (fun _ => .ok ()) [⟨"o", 3⟩]).2 (by simp),
   ((update_scene_no_partial_update
      { Pipeline.pipeline_new with
          outputs := [("o", PipelineOutput.mk ⟨⟨1920, 1080⟩⟩ ⟨8002, "ip"⟩)] }
      (fun _ => .ok ()) [⟨"p", 3⟩]).1 (by simp)).2⟩

/-- The per-frame dispatch loop sends exactly the frames whose output id
is registered, in order, and logs exactly the unknown ids, in order. -/
theorem dispatch_output_frames_spec (outputs : List (String × PipelineOutput))
    (frames : List (String × Frame)) :
    dispatch_output_frames outputs frames =
      (frames.filter (fun p => (outputs.lookup p.1).isSome),
       (frames.filter (fun p => (outputs.lookup p.1).isNone)).map
         (fun p => DriverLog.unknownOutput p.1)) := by
  induction frames with
  | nil => rfl
  | cons hd rest ih =>
    obtain ⟨id, frame⟩ := hd
    cases hl : outputs.lookup id with
    | none => simp [dispatch_output_frames, hl, ih, List.filter_cons]
    | some po => simp [dispatch_output_frames, hl, ih, List.filter_cons]

/-- C7: for every aligned batch read by the render driver, if more than 20
batches remain queued at that moment the batch is dropped with a warning
and the renderer is not invoked for it; otherwise the renderer is invoked
on the batch. -/
theorem render_driver_backlog_drop (backlog : Nat)
    (renderer_render : List (String × Frame) → Except Nat (List (String × Frame)))
    (outputs : List (String × PipelineOutput)) (input_frames : List (String × Frame)) :
    ((render_driver_step backlog renderer_render outputs input_frames).rendererInvoked =
      decide (backlog ≤ 20)) ∧
    (backlog > 20 →
      render_driver_step backlog renderer_render outputs input_frames =
        { rendererInvoked := false, sentFrames := [], logs := [.dropBacklog],
          continues := true }) := by
  by_cases h : backlog > 20
  · refine ⟨?_, fun _ => by simp [render_driver_step, h]⟩
    simp [render_driver_step, h, Nat.not_le.mpr h]
  · have hle : backlog ≤ 20 := Nat.not_lt.mp h
    refine ⟨?_, fun hc => absurd hc h⟩
    cases hr : renderer_render input_frames with
    | error code => simp [render_driver_step, h, hr, hle]
    | ok frames => simp [render_driver_step, h, hr, hle]

/-- Witness for `render_driver_backlog_drop`: at backlog 21 the batch is
dropped with a warning and the renderer is not invoked. -/
theorem render_driver_backlog_drop_witness :
    render_driver_step 21 (fun _ => .ok []) [] [] =
      { rendererInvoked := false, sentFrames := [], logs := [.dropBacklog],
        continues := true } :=
  (render_driver_backlog_drop 21 (fun _ => .ok []) [] []).2 (by decide)

/-- C9: the render driver never terminates on a per-batch failure.  The
loop always continues; a render error is logged and the batch dropped
(nothing is sent); and unknown output ids among the rendered frames are
logged and skipped while every remaining frame is still dispatched. -/
theorem render_driver_survives_failures (backlog : Nat)
    (renderer_render : List (String × Frame) → Except Nat (List (String × Frame)))
    (outputs : List (String × PipelineOutput)) (input_frames : List (String × Frame)) :
    ((render_driver_step backlog renderer_render outputs input_frames).continues = true) ∧
    (∀ code, backlog ≤ 20 → renderer_render input_frames = .error code →
      render_driver_step backlog renderer_render outputs input_frames =
        { rendererInvoked := true, sentFrames := [], logs := [.renderError code],
          continues := true }) ∧
    (∀ frames, backlog ≤ 20 → renderer_render input_frames = .ok frames →
      (render_driver_step backlog renderer_render outputs input_frames).sentFrames =
        frames.filter (fun p => (outputs.lookup p.1).isSome) ∧
      (render_driver_step backlog renderer_render outputs input_frames).logs =
        (frames.filter (fun p => (outputs.lookup p.1).isNone)).map
          (fun p => DriverLog.unknownOutput p.1)) := by
  refine ⟨?_, ?_, ?_⟩
  · by_cases h : backlog > 20
    · simp [render_driver_step, h]
    · cases hr : renderer_render input_frames with
      | error code => simp [render_driver_step, h, hr]
      | ok frames => simp [render_driver_step, h, hr]
  · intro code hle hr
    have h : ¬ backlog > 20 := Nat.not_lt.mpr hle
    simp [render_driver_step, h, hr]
  · intro frames hle hr
    have h : ¬ backlog > 20 := Nat.not_lt.mpr hle
    simp [render_driver_step, h, hr, dispatch_output_frames_spec]

/-- Witness for `render_driver_survives_failures`: a failing render at
backlog 0 is logged, nothing is sent, and the loop continues; a render
returning one known and one unknown output id sends the known frame and
logs the unknown one. -/
theorem render_driver_survives_failures_witness :
    render_driver_step 0 (fun _ => .error 7) [] [] =
      { rendererInvoked := true, sentFrames := [], logs := [.renderError 7],
        continues := true } ∧
    (render_driver_step 0 (fun _ => .ok [("x", ⟨1⟩), ("o", ⟨2⟩)])
        [("o", PipelineOutput.mk ⟨⟨1920, 1080⟩⟩ ⟨8002, "ip"⟩)] []).sentFrames =
      ([("x", ⟨1⟩), ("o", ⟨2⟩)].filter
        (fun p => ([("o", PipelineOutput.mk ⟨⟨1920, 1080⟩⟩ ⟨8002, "ip"⟩)].lookup p.1).isSome)) :=
  ⟨(render_driver_survives_failures 0 (fun _ => .error 7) [] []).2.1 7 (by decide) rfl,
   ((render_driver_survives_failures 0 (fun _ => .ok [("x", ⟨1⟩), ("o", ⟨2⟩)])
      [("o", PipelineOutput.mk ⟨⟨1920, 1080⟩⟩ ⟨8002, "ip"⟩)] []).2.2
      [("x", ⟨1⟩), ("o", ⟨2⟩)] (by decide) rfl).1⟩

/-- C2 counterexample: with an input registered on port 5002, candidate
5001 is the port-1 neighbour of 5002, so the claim says it is rejected;
the source's check (`input.port == port || input.port + 1 == port`) does
not reject it, and probing the range 5001..=5001 attempts 5001 and
succeeds. -/
theorem range_probe_attempts_port_below_registered :
    port_rejected_per_claim [("a", PipelineInput.mk ⟨5002⟩ ())] 5001 = true ∧
    port_used_by_input [("a", PipelineInput.mk ⟨5002⟩ ())] 5001 = false ∧
    register_input_range [("a", PipelineInput.mk ⟨5002⟩ ())] (fun _ => .ok ()) 5001 5001 =
      ([5001], .registeredPort 5001) := by
  refine ⟨by decide, by decide, ?_⟩
  rfl

/-- The probe loop, characterized: the loop stops at the first candidate
that is neither rejected by the registered-port check nor answered with an
`AddrInUse` bind failure; rejected candidates are skipped without an
attempt, `AddrInUse` candidates are attempted and advanced over, and the
stopping candidate's attempt decides the outcome (success returns its
port, any other failure aborts); if no candidate stops the loop the range
is exhausted. -/
theorem register_input_probe_spec (inputs : List (String × PipelineInput))
    (attempt : Nat → Except RegisterInputError Unit) (cands : List Nat) :
    register_input_probe inputs attempt cands =
      match cands.find? (fun c => !probe_skips inputs attempt c) with
      | none => (cands.filter (fun c => !(port_used_by_input inputs c)),
                 .portsExhausted)
      | some c =>
        ((cands.takeWhile (probe_skips inputs attempt)).filter
            (fun c => !(port_used_by_input inputs c)) ++ [c],
         match attempt c with
         | .ok _ => .registeredPort c
         | .error e => .registerError e) := by
  induction cands with
  | nil => rfl
  | cons p rest ih =>
    by_cases hs : probe_skips inputs attempt p
    · by_cases hu : port_used_by_input inputs p
      · rw [show register_input_probe inputs attempt (p :: rest) =
              register_input_probe inputs attempt rest from by
            simp [register_input_probe, hu]]
        rw [ih]
        cases hfind : List.find? (fun c => !probe_skips inputs attempt c) rest with
        | none =>
          simp [List.find?_cons, List.takeWhile_cons, List.filter_cons, hs, hu, hfind]
        | some c =>
          simp [List.find?_cons, List.takeWhile_cons, List.filter_cons, hs, hu, hfind]
      · have hc : check_port_not_available (attempt p) = true := by
          have h2 := hs
          simp [probe_skips, hu] at h2
          exact h2
        rw [show register_input_probe inputs attempt (p :: rest) =
              (p :: (register_input_probe inputs attempt rest).1,
               (register_input_probe inputs attempt rest).2) from by
            simp [register_input_probe, hu, hc]]
        rw [ih]
        cases hfind : List.find? (fun c => !probe_skips inputs attempt c) rest with
        | none =>
          simp [List.find?_cons, List.takeWhile_cons, List.filter_cons, hs, hu, hfind]
        | some c =>
          simp [List.find?_cons, List.takeWhile_cons, List.filter_cons, hs, hu, hfind]
    · have hor : (port_used_by_input inputs p ||
          check_port_not_available (attempt p)) = false :=
        Bool.eq_false_iff.mpr (by simpa [probe_skips] using hs)
      have hu : port_used_by_input inputs p = false := (Bool.or_eq_false_iff.mp hor).1
      have hc : check_port_not_available (attempt p) = false := (Bool.or_eq_false_iff.mp hor).2
      have hs2 : probe_skips inputs attempt p = false := by
        simp [probe_skips, hu, hc]
      cases hat : attempt p with
      | ok u =>
        have hcu : check_port_not_available (Except.ok u : Except RegisterInputError Unit) = false := by
          rw [← hat]
          exact hc
        rw [show register_input_probe inputs attempt (p :: rest) =
              ([p], .registeredPort p) from by
            simp [register_input_probe, hu, hcu, hat]]
        simp [List.find?_cons, List.takeWhile_cons, hs2, hat]
      | error e =>
        have hce : check_port_not_available (Except.error e : Except RegisterInputError Unit) = false := by
          rw [← hat]
          exact hc
        rw [show register_input_probe inputs attempt (p :: rest) =
              ([p], .registerError e) from by
            simp [register_input_probe, hu, hce, hat]]
        simp [List.find?_cons, List.takeWhile_cons, hs2, hat]

/-- C2 amended: range registration probes the candidates in ascending
order; a candidate is rejected when it equals a registered input's port
or is the `u16` successor (port+1 mod 2^16) of a registered input's port
(the port-1 neighbour is not rejected — see
`range_probe_attempts_port_below_registered`); each remaining candidate
has `register_input` attempted, an `AddrInUse` bind failure advances to
the next candidate, any other failure aborts immediately, and on success
the allocated port is returned. -/
theorem register_input_range_behaviour (inputs : List (String × PipelineInput))
    (attempt : Nat → Except RegisterInputError Unit) (start_port end_port : Nat) :
    (register_input_range inputs attempt start_port end_port =
      match (range_candidates start_port end_port).find?
          (fun c => !probe_skips inputs attempt c) with
      | none => ((range_candidates start_port end_port).filter
                   (fun c => !(port_used_by_input inputs c)),
                 .portsExhausted)
      | some c =>
        (((range_candidates start_port end_port).takeWhile
            (probe_skips inputs attempt)).filter
            (fun c => !(port_used_by_input inputs c)) ++ [c],
         match attempt c with
         | .ok _ => .registeredPort c
         | .error e => .registerError e)) ∧
    List.Pairwise (· < ·) (range_candidates start_port end_port) :=
  ⟨register_input_probe_spec inputs attempt (range_candidates start_port end_port),
   List.pairwise_lt_range' start_port (end_port + 1 - start_port)⟩

/-- C10: in the exact-port arm the pre-check rejects with
`PORT_ALREADY_IN_USE` exactly when some registered input holds the
requested port itself; a registered input on a neighbouring port does not
trigger it, and `register_input` is then attempted. -/
theorem register_input_exact_pre_check (inputs : List (String × PipelineInput))
    (attempt : Except RegisterInputError Unit) (port : Nat) :
    ((register_input_exact inputs attempt port).2 = .preCheckPortInUse ↔
      ∃ q ∈ inputs, q.2.input.port = port) ∧
    ((∀ q ∈ inputs, q.2.input.port ≠ port) →
      (register_input_exact inputs attempt port).1 = true) := by
  by_cases h : (inputs.any fun p => p.2.input.port == port) = true
  · have hex : ∃ q ∈ inputs, q.2.input.port = port := by
      simpa [List.any_eq_true, beq_iff_eq] using h
    refine ⟨?_, ?_⟩
    · simp [register_input_exact, h, hex]
    · intro hall
      rcases hex with ⟨q, hq, hqp⟩
      exact absurd hqp (hall q hq)
  · have hnex : ¬ ∃ q ∈ inputs, q.2.input.port = port := by
      simpa [List.any_eq_true, beq_iff_eq] using h
    refine ⟨?_, fun _ => ?_⟩
    · by_cases hc : check_port_not_available attempt = true
      · simp [register_input_exact, h, hc, hnex]
      · cases attempt with
        | ok u => simp [register_input_exact, h, hc, hnex]
        | error e2 => simp [register_input_exact, h, hc, hnex]
    · by_cases hc : check_port_not_available attempt = true
      · simp [register_input_exact, h, hc]
      · cases attempt with
        | ok u => simp [register_input_exact, h, hc]
        | error e2 => simp [register_input_exact, h, hc]

/-- Witness for `register_input_exact_pre_check`: an input on port 5001
does not stop an exact-port request for 5000 — the attempt happens. -/
theorem register_input_exact_pre_check_witness :
    (register_input_exact [("a", PipelineInput.mk ⟨5001⟩ ())] (.ok ()) 5000).1 = true :=
  (register_input_exact_pre_check [("a", PipelineInput.mk ⟨5001⟩ ())] (.ok ()) 5000).2
    (by decide)
